import Mathlib

/-!
Shallow embedding of the client kernel of `spotify-rs` (src/client.rs).

The repository ships only `src/client.rs`; the auxiliary modules it uses
(`auth.rs` with `Token`, `error.rs` with the error taxonomy, the crate-root
helpers `query_list`/`body_list`, and the endpoint records) are not under
`src/`, so those pieces are modelled from the specification and marked as
such in their doc comments.  Effectful collaborators (the OAuth adapter and
the HTTP transport) are modelled as explicit environment records of pure
functions, and the `&mut self` state threading of Rust becomes explicit
state passing.
-/

namespace Spotify

/-- Modelled from the spec: the `Token` record lives in `auth.rs`, which is
not under `src/`.  Per section 3 it carries the access-token secret, an
optional refresh-token secret, and issuance/expiry instants; the instants
are absent until `set_timestamps` stamps them after a successful decode
(`expires_in` is the lifetime the upstream response carries). -/
structure Token where
  access_token : String
  refresh_token : Option String
  expires_in : Nat
  issued_at : Option Nat := none
  expires_at : Option Nat := none
  deriving Repr, DecidableEq

/-- Modelled from the spec: `Token::set_timestamps` lives in `auth.rs`, not
under `src/`.  Per sections 3 and 4.1 it stamps the issuance instant with
the current clock reading and the expiry instant with issuance plus the
token lifetime. -/
def Token.set_timestamps (t : Token) (now : Nat) : Token :=
  { t with issued_at := some now, expires_at := some (now + t.expires_in) }

/-- Modelled from the spec: `Token::is_expired` lives in `auth.rs`, not
under `src/`.  Section 3 defines `is_expired(now) = now >= expires_at`,
over the stored expiry only.  A token whose expiry was never stamped has
no stored expiry; its field then holds the decode-time default (the epoch),
so the comparison treats it as `0`. -/
def Token.is_expired (t : Token) (now : Nat) : Bool :=
  decide ((t.expires_at.getD 0) ≤ now)

/-- Modelled from the spec: the upstream error envelope `SpotifyError`
(`error.rs`, not under `src/`): `{ "error": { "status": int, "message":
string, "reason": string? } }`. -/
structure SpotifyError where
  status : Nat
  message : String
  reason : Option String
  deriving Repr, DecidableEq

/-- Modelled from the spec: the error taxonomy of `error.rs`, which is not
under `src/` (section 7).  `OAuth` carries the adapter's detail, here kept
as a string. -/
inductive Error where
  | Transport : Error
  | Api : Nat → String → Option String → Error
  | MalformedResponse : Error
  | OAuth : String → Error
  | InvalidStateParameter : Error
  | ExpiredToken : Error
  | RefreshUnavailable : Error
  deriving Repr, DecidableEq

/-- The HTTP methods the kernel uses (`reqwest::Method`). -/
inductive Method where
  | GET : Method
  | POST : Method
  | PUT : Method
  | DELETE : Method
  deriving Repr, DecidableEq

/-- `Body<P>` from src/client.rs: either a JSON-serialisable payload or a
raw byte payload (bytes are modelled as `List Nat`, each below 256). -/
inductive Body (P : Type) where
  | Json : P → Body P
  | File : List Nat → Body P
  deriving Repr, DecidableEq

/-- The wire form a present body takes after the builder step of
`Client::request`: `req.json(&j)` keeps the JSON payload, `req.body(f)`
keeps the raw bytes. -/
inductive BodyWire (P : Type) where
  | json : P → BodyWire P
  | bytes : List Nat → BodyWire P
  deriving Repr, DecidableEq

/-- The outgoing HTTP request as assembled by `Client::request` before
`send`: method, full URL, bearer secret, optional query payload, optional
body, whether a literal `Content-Length: 0` header was attached, and the
content type the builder step sets (`req.json` sets `application/json`;
`req.body` sets none). -/
structure HttpRequest (P : Type) where
  method : Method
  url : String
  bearer : String
  query : Option P
  body : Option (BodyWire P)
  content_length_zero : Bool
  content_type : Option String
  deriving Repr, DecidableEq

/-- The transport's view of a response: its status code, the result of
deserialising its body as the typed result `T`, and the result of
deserialising it as the upstream error envelope (`none` models a decode
failure of the respective shape). -/
structure HttpResponse (T : Type) where
  status : Nat
  decode_ok : Option T
  decode_err : Option SpotifyError
  deriving Repr, DecidableEq

/-- The OAuth adapter and clock as seen by the refresh path: the
refresh-token exchange returns the decoded (unstamped) token or the
adapter's error detail. -/
structure RefreshEnv where
  now : Nat
  exchange_refresh_token : String → Except String Token

/-- The environment `Client::request` runs in: the refresh collaborators
plus the transport.  `send` returns `none` on a network failure. -/
structure ReqEnv (P T : Type) where
  refresh : RefreshEnv
  send : HttpRequest P → Option (HttpResponse T)

/-- `Client<Token, F>` from src/client.rs, restricted to the data the
kernel reads: the auto-refresh policy and the current token.  The OAuth
adapter and the HTTP transport it also holds are supplied as environments
to each operation. -/
structure Client where
  auto_refresh : Bool
  auth : Token
  deriving Repr, DecidableEq

/-- `Client::request_refresh_token` (src/client.rs lines 171-185): with no
stored refresh secret, fail with `RefreshUnavailable`; otherwise run the
refresh exchange, stamp timestamps, and install the new token.  The pair
returns the client state after the call together with the `Result<()>`. -/
def Client.request_refresh_token (c : Client) (env : RefreshEnv) :
    Client × Except Error Unit :=
  match c.auth.refresh_token with
  | none => (c, Except.error Error.RefreshUnavailable)
  | some rt =>
    match env.exchange_refresh_token rt with
    | Except.error e => (c, Except.error (Error.OAuth e))
    | Except.ok token =>
      ({ c with auth := token.set_timestamps env.now }, Except.ok ())

/-- The request assembly of `Client::request` (src/client.rs lines
202-221): base URL concatenation, bearer injection, query attachment, body
attachment (JSON or raw bytes), and the unconditional `Content-Length: 0`
header when no body is present. -/
def build_request {P : Type} (bearer : String) (method : Method)
    (endpoint : String) (query : Option P) (body : Option (Body P)) :
    HttpRequest P :=
  { method := method
    url := "https://api.spotify.com/v1" ++ endpoint
    bearer := bearer
    query := query
    body := body.map fun b => match b with
      | Body.Json j => BodyWire.json j
      | Body.File f => BodyWire.bytes f
    content_length_zero := body.isNone
    content_type := match body with
      | some (Body.Json _) => some "application/json"
      | _ => none }

/-- What one call to `Client::request` did: the `Result<T>`, the client
state afterwards, whether the automatic refresh was attempted, and the
request actually handed to the transport (`none` when none was issued). -/
structure RequestOutcome (P T : Type) where
  result : Except Error T
  client : Client
  refresh_attempted : Bool
  issued : Option (HttpRequest P)

/-- The build-dispatch-decode stage of `Client::request` (src/client.rs
lines 202-229), run once the freshness check has passed: assemble the
request, hand it to the transport, and demultiplex the response (2xx
decodes as `T`; any other status decodes as the upstream error envelope
and lifts to `Api`; each decode failure surfaces per the error
taxonomy). -/
def Client.send_request {P T : Type} (c : Client) (env : ReqEnv P T)
    (refreshed : Bool) (method : Method) (endpoint : String)
    (query : Option P) (body : Option (Body P)) : RequestOutcome P T :=
  let req := build_request c.auth.access_token method endpoint query body
  match env.send req with
  | none => ⟨Except.error Error.Transport, c, refreshed, some req⟩
  | some res =>
    if 200 ≤ res.status ∧ res.status < 300 then
      match res.decode_ok with
      | some t => ⟨Except.ok t, c, refreshed, some req⟩
      | none => ⟨Except.error Error.MalformedResponse, c, refreshed, some req⟩
    else
      match res.decode_err with
      | some se =>
        ⟨Except.error (Error.Api se.status se.message se.reason), c,
          refreshed, some req⟩
      | none => ⟨Except.error Error.MalformedResponse, c, refreshed, some req⟩

/-- `Client::request` (src/client.rs lines 187-230): expiry check with
optional one-shot auto-refresh (a failing refresh propagates through the
`?` operator), then the build-dispatch-decode stage. -/
def Client.request {P T : Type} (c : Client) (env : ReqEnv P T)
    (method : Method) (endpoint : String) (query : Option P)
    (body : Option (Body P)) : RequestOutcome P T :=
  if c.auth.is_expired env.refresh.now then
    if c.auto_refresh then
      let r := c.request_refresh_token env.refresh
      match r.2 with
      | Except.error e => ⟨Except.error e, r.1, true, none⟩
      | Except.ok _ => r.1.send_request env true method endpoint query body
    else
      ⟨Except.error Error.ExpiredToken, c, false, none⟩
  else
    c.send_request env false method endpoint query body

/-- `Client::get` (src/client.rs lines 232-239). -/
def Client.get {P T : Type} (c : Client) (env : ReqEnv P T)
    (endpoint : String) (query : Option P) : RequestOutcome P T :=
  c.request env Method.GET endpoint query none

/-- `Client::post` (src/client.rs lines 241-248). -/
def Client.post {P T : Type} (c : Client) (env : ReqEnv P T)
    (endpoint : String) (body : Option (Body P)) : RequestOutcome P T :=
  c.request env Method.POST endpoint none body

/-- `Client::put` (src/client.rs lines 250-256). -/
def Client.put {P T : Type} (c : Client) (env : ReqEnv P T)
    (endpoint : String) (body : Option (Body P)) : RequestOutcome P T :=
  c.request env Method.PUT endpoint none body

/-- `Client::delete` (src/client.rs lines 258-265). -/
def Client.delete {P T : Type} (c : Client) (env : ReqEnv P T)
    (endpoint : String) (body : Option (Body P)) : RequestOutcome P T :=
  c.request env Method.DELETE endpoint none body

/-- Modelled from the spec: `query_list` is a crate-root helper not under
`src/`.  Per sections 4.4 and 6, list parameters are comma-joined into a
single value. -/
def query_list (items : List String) : String :=
  String.intercalate "," items

/-- `Authorisation` from `auth.rs` (not under `src/`), modelled from the
spec (section 3): the authorization URL plus the secret CSRF state for the
non-PKCE code flow. -/
structure Authorisation where
  url : String
  csrf_token : String
  deriving Repr, DecidableEq

/-- `AuthorisationPKCE` from `auth.rs` (not under `src/`), modelled from
the spec (section 3): as `Authorisation` but additionally carrying the
PKCE verifier. -/
structure AuthorisationPKCE where
  url : String
  csrf_token : String
  pkce_verifier : String
  deriving Repr, DecidableEq

/-- What one `authenticate` call did: the `Result` and whether the
code-for-token exchange (the network call to the token endpoint) was
performed. -/
structure AuthOutcome where
  result : Except Error Client
  exchanged : Bool

/-- OAuth adapter and clock for the non-PKCE code exchange: given the
authorization code, return the decoded (unstamped) token or the adapter's
error detail. -/
structure CodeExchangeEnv where
  now : Nat
  exchange_code : String → Except String Token

/-- OAuth adapter and clock for the PKCE code exchange: given the
authorization code and the PKCE verifier, return the decoded (unstamped)
token or the adapter's error detail. -/
structure PkceExchangeEnv where
  now : Nat
  exchange_code_pkce : String → String → Except String Token

/-- `Client::<UnAuthenticated, AuthCodeGrantFlow>::authenticate`
(src/client.rs lines 941-965): reject a CSRF state not equal to the
handle's secret with `InvalidStateParameter` before any exchange;
otherwise exchange the code, stamp timestamps, and return the
authenticated client (which inherits `auto_refresh`). -/
def authenticate_auth_code (auto_refresh : Bool) (env : CodeExchangeEnv)
    (auth : Authorisation) (auth_code : String) (csrf_state : String) :
    AuthOutcome :=
  if csrf_state ≠ auth.csrf_token then
    ⟨Except.error Error.InvalidStateParameter, false⟩
  else
    match env.exchange_code auth_code with
    | Except.error e => ⟨Except.error (Error.OAuth e), true⟩
    | Except.ok token =>
      ⟨Except.ok ⟨auto_refresh, token.set_timestamps env.now⟩, true⟩

/-- `Client::<UnAuthenticated, AuthCodeGrantPKCEFlow>::authenticate`
(src/client.rs lines 895-920): as the non-PKCE flow, but the exchange
additionally presents the handle's PKCE verifier. -/
def authenticate_pkce (auto_refresh : Bool) (env : PkceExchangeEnv)
    (auth : AuthorisationPKCE) (auth_code : String) (csrf_state : String) :
    AuthOutcome :=
  if csrf_state ≠ auth.csrf_token then
    ⟨Except.error Error.InvalidStateParameter, false⟩
  else
    match env.exchange_code_pkce auth_code auth.pkce_verifier with
    | Except.error e => ⟨Except.error (Error.OAuth e), true⟩
    | Except.ok token =>
      ⟨Except.ok ⟨auto_refresh, token.set_timestamps env.now⟩, true⟩

/-- OAuth adapter and clock for the client-credentials exchange: given the
requested scopes, return the decoded (unstamped) token or the adapter's
error detail. -/
structure ClientCredsEnv where
  now : Nat
  exchange_client_credentials : List String → Except String Token

/-- `Client::<UnAuthenticated, ClientCredsGrantFlow>::authenticate`
(src/client.rs lines 968-988): exchange client credentials with the given
scopes and install the decoded token.  Faithful to the source, the decoded
token is installed as is — this path, unlike every other token-producing
path in src/client.rs, does not call `set_timestamps`. -/
def authenticate_client_creds (auto_refresh : Bool) (env : ClientCredsEnv)
    (scopes : List String) : Except Error Client :=
  match env.exchange_client_credentials scopes with
  | Except.error e => Except.error (Error.OAuth e)
  | Except.ok token => Except.ok ⟨auto_refresh, token⟩

/-- OAuth adapter and clock for `from_refresh_token`: the refresh exchange
given the persisted refresh secret and the scope hints. -/
structure FromRefreshEnv where
  now : Nat
  exchange_refresh_token_scoped : String → List String → Except String Token

/-- `Client::from_refresh_token` (src/client.rs lines 123-158): perform a
refresh exchange with the persisted refresh secret and the supplied scope
hints, stamp timestamps, and return the authenticated client. -/
def from_refresh_token (auto_refresh : Bool) (env : FromRefreshEnv)
    (scopes : List String) (refresh_token : String) : Except Error Client :=
  match env.exchange_refresh_token_scoped refresh_token scopes with
  | Except.error e => Except.error (Error.OAuth e)
  | Except.ok token =>
    Except.ok ⟨auto_refresh, token.set_timestamps env.now⟩

/-- The value of the base64 standard alphabet at index `n < 64`, as an
ASCII byte (`base64::engine::general_purpose::STANDARD`). -/
def b64_alphabet (n : Nat) : Nat :=
  if n < 26 then 65 + n
  else if n < 52 then 97 + (n - 26)
  else if n < 62 then 48 + (n - 52)
  else if n = 62 then 43
  else 47

/-- Standard base64 encoding with `=` padding (byte 61), from input bytes
to ASCII output bytes, as performed by
`general_purpose::STANDARD.encode(..).into_bytes()` in
`Client::add_playlist_image`. -/
def base64_encode : List Nat → List Nat
  | [] => []
  | [a] =>
    [b64_alphabet (a / 4), b64_alphabet (a % 4 * 16), 61, 61]
  | [a, b] =>
    [b64_alphabet (a / 4), b64_alphabet (a % 4 * 16 + b / 16),
      b64_alphabet (b % 16 * 4), 61]
  | a :: b :: c :: rest =>
    b64_alphabet (a / 4) :: b64_alphabet (a % 4 * 16 + b / 16) ::
      b64_alphabet (b % 16 * 4 + c / 64) :: b64_alphabet (c % 64) ::
      base64_encode rest

/-- `Client::add_playlist_image` (src/client.rs lines 491-496):
base64-encode the raw image bytes and send them as a `Body::File` via
`put` to `/playlists/{id}/images`. -/
def Client.add_playlist_image {P T : Type} (c : Client) (env : ReqEnv P T)
    (id : String) (image : List Nat) : RequestOutcome P T :=
  let encoded_image := base64_encode image
  let body : Body P := Body.File encoded_image
  c.put env ("/playlists/" ++ id ++ "/images") (some body)

/-- `Seed<T, S>` from the endpoint module (the module is not under `src/`,
but the three variants and their payloads are fixed by the `match` in
`Client::recommendations`, src/client.rs lines 566-570): artist ids, genre
names, or track ids. -/
inductive Seed where
  | Artists : List String → Seed
  | Genres : List String → Seed
  | Tracks : List String → Seed
  deriving Repr, DecidableEq

/-- `RecommendationsEndpoint` restricted to the fields
`Client::recommendations` populates (src/client.rs lines 572-580); the
tunable-feature slot is kept abstract as an always-absent option. -/
structure RecommendationsEndpoint where
  seed_artists : Option String
  seed_genres : Option String
  seed_tracks : Option String
  limit : Option Nat
  market : Option String
  features : Option String
  deriving Repr, DecidableEq

/-- `Client::recommendations` (src/client.rs lines 562-581): match the
seed into the triple of optional comma-joined lists and build the endpoint
record with every other option absent. -/
def recommendations (seed : Seed) : RecommendationsEndpoint :=
  let t : Option String × Option String × Option String :=
    match seed with
    | Seed.Artists ids => (some (query_list ids), none, none)
    | Seed.Genres genres => (none, some (query_list genres), none)
    | Seed.Tracks ids => (none, none, some (query_list ids))
  { seed_artists := t.1
    seed_genres := t.2.1
    seed_tracks := t.2.2
    limit := none
    market := none
    features := none }

/-! Concrete fixtures used by the witness and counterexample theorems. -/

/-- A stamped token carrying a refresh secret, expiring at instant 100. -/
def sample_token : Token :=
  { access_token := "at", refresh_token := some "rt", expires_in := 60,
    issued_at := some 40, expires_at := some 100 }

/-- A stamped token with no refresh secret, expiring at instant 100. -/
def sample_token_norefresh : Token :=
  { access_token := "at", refresh_token := none, expires_in := 60,
    issued_at := some 40, expires_at := some 100 }

/-- An unstamped token as the OAuth adapter decodes it from an exchange
response. -/
def raw_token : Token :=
  { access_token := "new-at", refresh_token := some "new-rt",
    expires_in := 3600 }

/-- A refresh environment whose exchange succeeds with `raw_token`, read
at instant 1000 (past `sample_token`'s expiry). -/
def refresh_ok_env : RefreshEnv :=
  { now := 1000, exchange_refresh_token := fun _ => Except.ok raw_token }

/-- A refresh environment whose exchange fails with detail `"boom"`, read
at instant 1000 (past `sample_token`'s expiry). -/
def refresh_fail_env : RefreshEnv :=
  { now := 1000, exchange_refresh_token := fun _ => Except.error "boom" }

/-- A refresh environment read at instant 50, before `sample_token`'s
expiry; its exchange fails. -/
def refresh_early_env : RefreshEnv :=
  { now := 50, exchange_refresh_token := fun _ => Except.error "boom" }

/-- A transport that answers every request with status 200 and a body
decoding to `7`. -/
def send_200 : HttpRequest Unit → Option (HttpResponse Nat) :=
  fun _ => some { status := 200, decode_ok := some 7, decode_err := none }

/-- A transport that answers every request with status 403 and a body
decoding to the upstream error envelope. -/
def send_403 : HttpRequest Unit → Option (HttpResponse Nat) :=
  fun _ =>
    some { status := 403, decode_ok := none,
           decode_err := some { status := 403, message := "oops",
                                reason := some "UNKNOWN" } }

/-- Request environment: failing refresh at instant 1000, 200 transport. -/
def env_fail_refresh : ReqEnv Unit Nat :=
  { refresh := refresh_fail_env, send := send_200 }

/-- Request environment: clock at instant 50 (token fresh), 200
transport. -/
def env_fresh : ReqEnv Unit Nat :=
  { refresh := refresh_early_env, send := send_200 }

/-- Request environment: clock at instant 50 (token fresh), 403
transport. -/
def env_fresh_403 : ReqEnv Unit Nat :=
  { refresh := refresh_early_env, send := send_403 }

/-- A CSRF handle fixture for the non-PKCE code flow. -/
def sample_auth : Authorisation :=
  { url := "https://accounts.spotify.com/authorize?x", csrf_token := "state123" }

/-- A CSRF handle fixture for the PKCE code flow. -/
def sample_auth_pkce : AuthorisationPKCE :=
  { url := "https://accounts.spotify.com/authorize?x", csrf_token := "state123",
    pkce_verifier := "verifier" }

/-- A code-exchange environment succeeding with `raw_token` at clock 1000. -/
def code_env : CodeExchangeEnv :=
  { now := 1000, exchange_code := fun _ => Except.ok raw_token }

/-- A PKCE code-exchange environment succeeding with `raw_token` at clock
1000. -/
def pkce_env : PkceExchangeEnv :=
  { now := 1000, exchange_code_pkce := fun _ _ => Except.ok raw_token }

/-- An unstamped token as the client-credentials exchange decodes it
(such tokens carry no refresh secret). -/
def raw_cc_token : Token :=
  { access_token := "cc-at", refresh_token := none, expires_in := 3600 }

/-- A client-credentials exchange environment succeeding with
`raw_cc_token` at clock 1000. -/
def cc_env : ClientCredsEnv :=
  { now := 1000, exchange_client_credentials := fun _ => Except.ok raw_cc_token }

/-- A `from_refresh_token` exchange environment succeeding with
`raw_token` at clock 1000. -/
def from_env : FromRefreshEnv :=
  { now := 1000,
    exchange_refresh_token_scoped := fun _ _ => Except.ok raw_token }

/-! Helper lemmas shared by several claims. -/

/-- The build-dispatch-decode stage always hands the transport exactly the
request it assembled. -/
theorem send_request_issued {P T : Type} (c : Client) (env : ReqEnv P T)
    (refreshed : Bool) (method : Method) (endpoint : String)
    (query : Option P) (body : Option (Body P)) :
    (c.send_request env refreshed method endpoint query body).issued =
      some (build_request c.auth.access_token method endpoint query body) := by
  simp only [Client.send_request]
  split
  · rfl
  · split
    · split <;> rfl
    · split <;> rfl

/-- Any request `Client::request` hands to the transport was assembled by
`build_request`, for some bearer secret. -/
theorem request_issued_build {P T : Type} (c : Client) (env : ReqEnv P T)
    (method : Method) (endpoint : String) (query : Option P)
    (body : Option (Body P)) (r : HttpRequest P)
    (hi : (c.request env method endpoint query body).issued = some r) :
    ∃ tok : String, r = build_request tok method endpoint query body := by
  unfold Client.request at hi
  by_cases hexp : c.auth.is_expired env.refresh.now
  · by_cases har : c.auto_refresh
    · simp only [hexp, har, if_pos] at hi
      cases hrt : (c.request_refresh_token env.refresh).2 with
      | error e => rw [hrt] at hi; simp at hi
      | ok u =>
        rw [hrt] at hi
        rw [send_request_issued] at hi
        exact ⟨_, (Option.some.inj hi).symm⟩
    · simp only [hexp, har, if_pos, if_neg] at hi
      simp at hi
  · simp only [hexp] at hi
    rw [Bool.not_eq_true] at hexp
    simp only [hexp, Bool.false_eq_true, if_false] at hi
    rw [send_request_issued] at hi
    exact ⟨_, (Option.some.inj hi).symm⟩

/-- The build-dispatch-decode stage reports exactly the refresh flag it was
given. -/
theorem send_request_refreshed {P T : Type} (c : Client) (env : ReqEnv P T)
    (refreshed : Bool) (method : Method) (endpoint : String)
    (query : Option P) (body : Option (Body P)) :
    (c.send_request env refreshed method endpoint query body).refresh_attempted
      = refreshed := by
  simp only [Client.send_request]
  split
  · rfl
  · split
    · split <;> rfl
    · split <;> rfl

/-- The result of the build-dispatch-decode stage is the status/decode
demultiplexing of the transport's response. -/
theorem send_request_result {P T : Type} (c : Client) (env : ReqEnv P T)
    (refreshed : Bool) (method : Method) (endpoint : String)
    (query : Option P) (body : Option (Body P)) (res : HttpResponse T)
    (hs : env.send (build_request c.auth.access_token method endpoint query body)
      = some res) :
    (c.send_request env refreshed method endpoint query body).result =
      if 200 ≤ res.status ∧ res.status < 300 then
        match res.decode_ok with
        | some t => Except.ok t
        | none => Except.error Error.MalformedResponse
      else
        match res.decode_err with
        | some se => Except.error (Error.Api se.status se.message se.reason)
        | none => Except.error Error.MalformedResponse := by
  simp only [Client.send_request, hs]
  split
  · split <;> rfl
  · split <;> rfl

/-- Response demultiplexing, phrased for the request the stage issued. -/
theorem send_request_demux {P T : Type} (c : Client) (env : ReqEnv P T)
    (refreshed : Bool) (method : Method) (endpoint : String)
    (query : Option P) (body : Option (Body P)) (r : HttpRequest P)
    (res : HttpResponse T)
    (hi : (c.send_request env refreshed method endpoint query body).issued = some r)
    (hs : env.send r = some res) :
    (200 ≤ res.status ∧ res.status < 300 →
      (∀ t, res.decode_ok = some t →
        (c.send_request env refreshed method endpoint query body).result
          = Except.ok t) ∧
      (res.decode_ok = none →
        (c.send_request env refreshed method endpoint query body).result
          = Except.error Error.MalformedResponse)) ∧
    (¬(200 ≤ res.status ∧ res.status < 300) →
      (∀ se, res.decode_err = some se →
        (c.send_request env refreshed method endpoint query body).result
          = Except.error (Error.Api se.status se.message se.reason)) ∧
      (res.decode_err = none →
        (c.send_request env refreshed method endpoint query body).result
          = Except.error Error.MalformedResponse)) := by
  rw [send_request_issued] at hi
  obtain rfl : r = build_request c.auth.access_token method endpoint query body :=
    (Option.some.inj hi).symm
  rw [send_request_result c env refreshed method endpoint query body res hs]
  refine ⟨fun hok => ⟨fun t ht => ?_, fun hn => ?_⟩,
    fun hbad => ⟨fun se hse => ?_, fun hn => ?_⟩⟩
  · simp [if_pos hok, ht]
  · simp [if_pos hok, hn]
  · simp [if_neg hbad, hse]
  · simp [if_neg hbad, hn]

/-! The claims. -/

/-- C1: on every call to `Client::request`, an expired token with
auto-refresh enabled triggers the refresh before the request is built, a
failing refresh returns that failure with the original request never
issued, an expired token with auto-refresh disabled returns `ExpiredToken`
with no HTTP call and no refresh, and a fresh token triggers no refresh. -/
theorem C1_request_expiry_policy {P T : Type} (c : Client) (env : ReqEnv P T)
    (method : Method) (endpoint : String) (query : Option P)
    (body : Option (Body P)) :
    (c.auth.is_expired env.refresh.now = true → c.auto_refresh = true →
      (c.request env method endpoint query body).refresh_attempted = true ∧
      ∀ e, (c.request_refresh_token env.refresh).2 = Except.error e →
        (c.request env method endpoint query body).result = Except.error e ∧
        (c.request env method endpoint query body).issued = none) ∧
    (c.auth.is_expired env.refresh.now = true → c.auto_refresh = false →
      (c.request env method endpoint query body).result
          = Except.error Error.ExpiredToken ∧
      (c.request env method endpoint query body).issued = none ∧
      (c.request env method endpoint query body).refresh_attempted = false) ∧
    (c.auth.is_expired env.refresh.now = false →
      (c.request env method endpoint query body).refresh_attempted = false) := by
  refine ⟨fun hexp har => ⟨?_, fun e hrt => ?_⟩, fun hexp har => ?_, fun hexp => ?_⟩
  · rcases hrt : (c.request_refresh_token env.refresh).2 with e | u <;>
      simp [Client.request, hexp, har, hrt, send_request_refreshed]
  · simp [Client.request, hexp, har, hrt]
  · simp [Client.request, hexp, har]
  · simp [Client.request, hexp, send_request_refreshed]

/-- C1 witness: at concrete inputs, a failing refresh's `OAuth` error is
returned with nothing issued, and an expired token without auto-refresh
yields `ExpiredToken`. -/
theorem C1_request_expiry_policy_witness :
    ((⟨true, sample_token⟩ : Client).request env_fail_refresh Method.GET "/me"
        none none).result = Except.error (Error.OAuth "boom") ∧
    ((⟨true, sample_token⟩ : Client).request env_fail_refresh Method.GET "/me"
        none none).issued = none ∧
    ((⟨false, sample_token⟩ : Client).request env_fail_refresh Method.GET "/me"
        none none).result = Except.error Error.ExpiredToken :=
  ⟨(((C1_request_expiry_policy ⟨true, sample_token⟩ env_fail_refresh Method.GET
      "/me" none none).1 rfl rfl).2 (Error.OAuth "boom") rfl).1,
   (((C1_request_expiry_policy ⟨true, sample_token⟩ env_fail_refresh Method.GET
      "/me" none none).1 rfl rfl).2 (Error.OAuth "boom") rfl).2,
   ((C1_request_expiry_policy ⟨false, sample_token⟩ env_fail_refresh Method.GET
      "/me" none none).2.1 rfl rfl).1⟩

/-- C2: for both code flows, `authenticate` returns
`InvalidStateParameter` without performing the token exchange when the
received state differs from the handle's CSRF state, and performs the
exchange when they are equal. -/
theorem C2_authenticate_csrf (auto_refresh : Bool) (cenv : CodeExchangeEnv)
    (penv : PkceExchangeEnv) (a : Authorisation) (ap : AuthorisationPKCE)
    (code s : String) :
    (s ≠ a.csrf_token →
      (authenticate_auth_code auto_refresh cenv a code s).result
          = Except.error Error.InvalidStateParameter ∧
      (authenticate_auth_code auto_refresh cenv a code s).exchanged = false) ∧
    (s = a.csrf_token →
      (authenticate_auth_code auto_refresh cenv a code s).exchanged = true) ∧
    (s ≠ ap.csrf_token →
      (authenticate_pkce auto_refresh penv ap code s).result
          = Except.error Error.InvalidStateParameter ∧
      (authenticate_pkce auto_refresh penv ap code s).exchanged = false) ∧
    (s = ap.csrf_token →
      (authenticate_pkce auto_refresh penv ap code s).exchanged = true) := by
  refine ⟨fun h => ?_, fun h => ?_, fun h => ?_, fun h => ?_⟩
  · simp [authenticate_auth_code, h]
  · rcases hx : cenv.exchange_code code with e | t <;>
      simp [authenticate_auth_code, h, hx]
  · simp [authenticate_pkce, h]
  · rcases hx : penv.exchange_code_pkce code ap.pkce_verifier with e | t <;>
      simp [authenticate_pkce, h, hx]

/-- C2 witness: a mismatching state is rejected without an exchange and a
matching state reaches the exchange, at concrete inputs. -/
theorem C2_authenticate_csrf_witness :
    (authenticate_auth_code true code_env sample_auth "anycode"
        "not-the-state").result = Except.error Error.InvalidStateParameter ∧
    (authenticate_auth_code true code_env sample_auth "anycode"
        "not-the-state").exchanged = false ∧
    (authenticate_pkce true pkce_env sample_auth_pkce "anycode"
        "state123").exchanged = true :=
  ⟨((C2_authenticate_csrf true code_env pkce_env sample_auth sample_auth_pkce
      "anycode" "not-the-state").1 (by decide)).1,
   ((C2_authenticate_csrf true code_env pkce_env sample_auth sample_auth_pkce
      "anycode" "not-the-state").1 (by decide)).2,
   (C2_authenticate_csrf true code_env pkce_env sample_auth sample_auth_pkce
      "anycode" "state123").2.2.2 (by decide)⟩

/-- C3: `request_refresh_token` fails with `RefreshUnavailable` exactly
when no refresh secret is stored; on any failure the stored token is
unchanged, and on success the stored token is exactly the freshly
exchanged, freshly stamped one. -/
theorem C3_request_refresh_token_spec (c : Client) (env : RefreshEnv) :
    ((c.request_refresh_token env).2 = Except.error Error.RefreshUnavailable ↔
      c.auth.refresh_token = none) ∧
    (∀ e, (c.request_refresh_token env).2 = Except.error e →
      (c.request_refresh_token env).1 = c) ∧
    ((c.request_refresh_token env).2 = Except.ok () →
      ∃ rt token, c.auth.refresh_token = some rt ∧
        env.exchange_refresh_token rt = Except.ok token ∧
        (c.request_refresh_token env).1.auth = token.set_timestamps env.now) := by
  rcases hrt : c.auth.refresh_token with _ | rt
  · simp [Client.request_refresh_token, hrt]
  · rcases hex : env.exchange_refresh_token rt with e | token <;>
      simp [Client.request_refresh_token, hrt, hex]

/-- C3 witness: with no stored refresh secret the call fails with
`RefreshUnavailable` and leaves the client unchanged, at concrete
inputs. -/
theorem C3_request_refresh_token_spec_witness :
    ((⟨false, sample_token_norefresh⟩ : Client).request_refresh_token
        refresh_ok_env).2 = Except.error Error.RefreshUnavailable ∧
    ((⟨false, sample_token_norefresh⟩ : Client).request_refresh_token
        refresh_ok_env).1 = ⟨false, sample_token_norefresh⟩ :=
  ⟨(C3_request_refresh_token_spec ⟨false, sample_token_norefresh⟩
      refresh_ok_env).1.mpr rfl,
   (C3_request_refresh_token_spec ⟨false, sample_token_norefresh⟩
      refresh_ok_env).2.1 Error.RefreshUnavailable
     ((C3_request_refresh_token_spec ⟨false, sample_token_norefresh⟩
        refresh_ok_env).1.mpr rfl)⟩

/-- C4: for every response `Client::request` receives, a 2xx status
deserialises the body as the typed result (decode failure surfacing as
`MalformedResponse`), and any non-2xx status deserialises the body as the
upstream error envelope surfaced as `Api`, with `MalformedResponse` when
that envelope decode fails. -/
theorem C4_response_demux {P T : Type} (c : Client) (env : ReqEnv P T)
    (method : Method) (endpoint : String) (query : Option P)
    (body : Option (Body P)) (r : HttpRequest P) (res : HttpResponse T)
    (hi : (c.request env method endpoint query body).issued = some r)
    (hs : env.send r = some res) :
    (200 ≤ res.status ∧ res.status < 300 →
      (∀ t, res.decode_ok = some t →
        (c.request env method endpoint query body).result = Except.ok t) ∧
      (res.decode_ok = none →
        (c.request env method endpoint query body).result
          = Except.error Error.MalformedResponse)) ∧
    (¬(200 ≤ res.status ∧ res.status < 300) →
      (∀ se, res.decode_err = some se →
        (c.request env method endpoint query body).result
          = Except.error (Error.Api se.status se.message se.reason)) ∧
      (res.decode_err = none →
        (c.request env method endpoint query body).result
          = Except.error Error.MalformedResponse)) := by
  unfold Client.request at hi ⊢
  by_cases hexp : c.auth.is_expired env.refresh.now = true
  · by_cases har : c.auto_refresh = true
    · simp only [hexp, har, if_true] at hi ⊢
      rcases hrt : (c.request_refresh_token env.refresh).2 with e | u
      · simp only [hrt] at hi
        exact absurd hi (by simp)
      · simp only [hrt] at hi ⊢
        exact send_request_demux _ env true method endpoint query body r res hi hs
    · simp only [hexp, har, if_true, Bool.not_eq_true] at hi
      simp at hi
  · simp only [Bool.not_eq_true] at hexp
    simp only [hexp, Bool.false_eq_true, if_false] at hi ⊢
    exact send_request_demux c env false method endpoint query body r res hi hs

/-- C4 witness: at concrete inputs, a 403 with a conforming envelope
surfaces as `Api` and a 200 decodes as the typed result. -/
theorem C4_response_demux_witness :
    ((⟨false, sample_token⟩ : Client).request env_fresh_403 Method.GET "/me"
        none none).result
      = Except.error (Error.Api 403 "oops" (some "UNKNOWN")) ∧
    ((⟨false, sample_token⟩ : Client).request env_fresh Method.GET "/me"
        none none).result = Except.ok 7 :=
  ⟨((C4_response_demux ⟨false, sample_token⟩ env_fresh_403 Method.GET "/me"
      none none (build_request "at" Method.GET "/me" none none)
      { status := 403, decode_ok := none,
        decode_err := some { status := 403, message := "oops",
                             reason := some "UNKNOWN" } }
      rfl rfl).2 (by decide)).1
      { status := 403, message := "oops", reason := some "UNKNOWN" } rfl,
   ((C4_response_demux ⟨false, sample_token⟩ env_fresh Method.GET "/me"
      none none (build_request "at" Method.GET "/me" none none)
      { status := 200, decode_ok := some 7, decode_err := none }
      rfl rfl).1 (by decide)).1 7 rfl⟩

/-- C5 evidence: the client-credentials `authenticate` installs the
decoded token without stamping its issuance and expiry instants, while
the sibling token-producing paths (here the non-PKCE code exchange and
`from_refresh_token`) stamp them immediately on decode. -/
theorem C5_client_creds_skips_stamping :
    authenticate_client_creds true cc_env ["scope"]
        = Except.ok ⟨true, raw_cc_token⟩ ∧
    raw_cc_token.issued_at = none ∧
    raw_cc_token.expires_at = none ∧
    (authenticate_auth_code true code_env sample_auth "code" "state123").result
        = Except.ok ⟨true, { raw_token with
                             issued_at := some 1000
                             expires_at := some 4600 }⟩ ∧
    from_refresh_token true from_env ["scope"] "rt"
        = Except.ok ⟨true, { raw_token with
                             issued_at := some 1000
                             expires_at := some 4600 }⟩ :=
  ⟨rfl, rfl, rfl, rfl, rfl⟩

/-- C6: every request `Client::request` issues carries a literal
`Content-Length: 0` header when no body was supplied, for any method and
query, while a `Json` body goes out as the JSON payload and a `File` body
as the raw bytes. -/
theorem C6_request_body_wire {P T : Type} (c : Client) (env : ReqEnv P T)
    (method : Method) (endpoint : String) (query : Option P)
    (body : Option (Body P)) (r : HttpRequest P)
    (hi : (c.request env method endpoint query body).issued = some r) :
    (body = none → r.content_length_zero = true) ∧
    (∀ j, body = some (Body.Json j) →
      r.body = some (BodyWire.json j) ∧
      r.content_type = some "application/json") ∧
    (∀ f, body = some (Body.File f) → r.body = some (BodyWire.bytes f)) := by
  obtain ⟨tok, rfl⟩ := request_issued_build c env method endpoint query body r hi
  refine ⟨fun hb => ?_, fun j hb => ?_, fun f hb => ?_⟩ <;> subst hb <;>
    simp [build_request]

/-- C6 witness: at concrete inputs, a body-less PUT carries
`Content-Length: 0` and a `File` body goes out as its raw bytes. -/
theorem C6_request_body_wire_witness :
    (build_request "at" Method.PUT "/me/audiobooks" (none : Option Unit)
        none).content_length_zero = true ∧
    (build_request "at" Method.PUT "/p" (none : Option Unit)
        (some (Body.File [1]))).body = some (BodyWire.bytes [1]) :=
  ⟨(C6_request_body_wire ⟨false, sample_token⟩ env_fresh Method.PUT
      "/me/audiobooks" none none (build_request "at" Method.PUT
      "/me/audiobooks" none none) rfl).1 rfl,
   (C6_request_body_wire ⟨false, sample_token⟩ env_fresh Method.PUT
      "/p" none (some (Body.File [1])) (build_request "at" Method.PUT
      "/p" none (some (Body.File [1]))) rfl).2.2 [1] rfl⟩

/-- C7 counterexample: at a concrete input, `add_playlist_image` issues
its upload request with no content type at all — in particular not
`image/jpeg` as the claim states. -/
theorem C7_add_playlist_image_counterexample :
    (((⟨false, sample_token⟩ : Client).add_playlist_image env_fresh "p"
        [1, 2, 3]).issued.map fun r => r.content_type) = some none ∧
    some (none : Option String) ≠ some (some "image/jpeg") :=
  ⟨rfl, by decide⟩

/-- C7 as amended: `add_playlist_image` base64-encodes the given raw
bytes and sends them as the raw body of a PUT to
`/playlists/{id}/images`, setting no content type. -/
theorem C7_add_playlist_image_amended {P T : Type} (c : Client)
    (env : ReqEnv P T) (id : String) (image : List Nat) (r : HttpRequest P)
    (hi : (c.add_playlist_image env id image).issued = some r) :
    r.method = Method.PUT ∧
    r.url = "https://api.spotify.com/v1" ++ ("/playlists/" ++ id ++ "/images") ∧
    r.body = some (BodyWire.bytes (base64_encode image)) ∧
    r.content_type = none := by
  obtain ⟨tok, rfl⟩ := request_issued_build c env Method.PUT
    ("/playlists/" ++ id ++ "/images") none
    (some (Body.File (base64_encode image))) r hi
  exact ⟨rfl, rfl, rfl, rfl⟩

/-- C7 amended witness: the concrete upload request is a PUT of the
base64 bytes with no content type. -/
theorem C7_add_playlist_image_amended_witness :
    (build_request "at" Method.PUT ("/playlists/" ++ "p" ++ "/images")
        (none : Option Unit)
        (some (Body.File (base64_encode [1, 2, 3])))).content_type = none ∧
    (build_request "at" Method.PUT ("/playlists/" ++ "p" ++ "/images")
        (none : Option Unit)
        (some (Body.File (base64_encode [1, 2, 3])))).body
      = some (BodyWire.bytes [65, 81, 73, 68]) :=
  ⟨(C7_add_playlist_image_amended ⟨false, sample_token⟩ env_fresh "p"
      [1, 2, 3] (build_request "at" Method.PUT
      ("/playlists/" ++ "p" ++ "/images") none
      (some (Body.File (base64_encode [1, 2, 3])))) rfl).2.2.2,
   (C7_add_playlist_image_amended ⟨false, sample_token⟩ env_fresh "p"
      [1, 2, 3] (build_request "at" Method.PUT
      ("/playlists/" ++ "p" ++ "/images") none
      (some (Body.File (base64_encode [1, 2, 3])))) rfl).2.2.1⟩

/-- C8: every request `Client::request` issues targets the fixed base
`https://api.spotify.com/v1` concatenated with the endpoint path, for all
methods, queries and bodies. -/
theorem C8_request_url {P T : Type} (c : Client) (env : ReqEnv P T)
    (method : Method) (endpoint : String) (query : Option P)
    (body : Option (Body P)) (r : HttpRequest P)
    (hi : (c.request env method endpoint query body).issued = some r) :
    r.url = "https://api.spotify.com/v1" ++ endpoint := by
  obtain ⟨tok, rfl⟩ := request_issued_build c env method endpoint query body r hi
  rfl

/-- C8 witness: the concrete issued request's URL is the base followed by
the path. -/
theorem C8_request_url_witness :
    (build_request "at" Method.GET "/me" (none : Option Unit) none).url
      = "https://api.spotify.com/v1" ++ "/me" :=
  C8_request_url ⟨false, sample_token⟩ env_fresh Method.GET "/me" none none
    (build_request "at" Method.GET "/me" none none) rfl

/-- C9: the convenience verbs `get`, `post`, `put` and `delete` are
definitionally `request` with the corresponding method and the absent
query or body slot. -/
theorem C9_convenience_verbs {P T : Type} (c : Client) (env : ReqEnv P T)
    (endpoint : String) (query : Option P) (body : Option (Body P)) :
    c.get env endpoint query = c.request env Method.GET endpoint query none ∧
    c.post env endpoint body = c.request env Method.POST endpoint none body ∧
    c.put env endpoint body = c.request env Method.PUT endpoint none body ∧
    c.delete env endpoint body
      = c.request env Method.DELETE endpoint none body :=
  ⟨rfl, rfl, rfl, rfl⟩

/-- C10: `recommendations` sets exactly the one seed field matching the
seed's kind to the comma-joined list and leaves the other two absent. -/
theorem C10_recommendations_seed_exclusive (seed : Seed) :
    ([(recommendations seed).seed_artists, (recommendations seed).seed_genres,
        (recommendations seed).seed_tracks].countP Option.isSome = 1) ∧
    (∀ ids, seed = Seed.Artists ids →
      (recommendations seed).seed_artists = some (String.intercalate "," ids) ∧
      (recommendations seed).seed_genres = none ∧
      (recommendations seed).seed_tracks = none) ∧
    (∀ genres, seed = Seed.Genres genres →
      (recommendations seed).seed_genres
          = some (String.intercalate "," genres) ∧
      (recommendations seed).seed_artists = none ∧
      (recommendations seed).seed_tracks = none) ∧
    (∀ ids, seed = Seed.Tracks ids →
      (recommendations seed).seed_tracks = some (String.intercalate "," ids) ∧
      (recommendations seed).seed_artists = none ∧
      (recommendations seed).seed_genres = none) := by
  cases seed <;> simp [recommendations, query_list]

/-- C10 witness: at a concrete artist seed, only `seed_artists` is
present and holds the comma-joined ids. -/
theorem C10_recommendations_seed_exclusive_witness :
    (recommendations (Seed.Artists ["a", "b"])).seed_artists
        = some (String.intercalate "," ["a", "b"]) ∧
    (recommendations (Seed.Artists ["a", "b"])).seed_genres = none ∧
    (recommendations (Seed.Artists ["a", "b"])).seed_tracks = none :=
  (C10_recommendations_seed_exclusive (Seed.Artists ["a", "b"])).2.1
    ["a", "b"] rfl

end Spotify
